import Mathlib

/-
Verification of the lookap-chat dataset-lookup pipeline.

The repository holds several near-duplicate revisions of a serverless chat
handler: an LLM call classifies a user message into (dataset, columns, value),
the named CSV blob is downloaded and linearly scanned for case-insensitive
substring matches, and the matches are formatted into a reply, with a plain
LLM chat completion as fallback.

The shallow embedding below models, from the source:
  * the CSV row filter and the promise/event semantics of
    `searchDataset` (src/unnamed/part_003),
  * `AIDataService.parseOpenAIResponse`, `processRequest`,
    `ResponseFormatter` and the top-level catch of src/unnamed/part_000,
  * the `chatFunction` HTTP handler (src/chatFunction/index.js),
  * the broken synchronous-return `searchDataset` of src/unnamed/part_001.

External collaborators (blob store, the fast-csv parser, the LLM) are
oracle parameters: a `BlobEnv` supplies blob existence, raw content and the
parsed stream events of each file; LLM calls are functions `String → String`.
-/

/-- A parsed CSV row as fast-csv delivers it with `headers: true`: a mapping
from column name to cell string, modelled as an association list. -/
abbrev Row := List (String × String)

/-- JavaScript `row[column]`: the cell of a column, `none` when the column is
absent from the row. -/
def getCell (r : Row) (c : String) : Option String :=
  (r.find? (fun p => p.1 = c)).map (fun p => p.2)

/-- Whether the first character list is an initial segment of the second. -/
def hasLead : List Char → List Char → Bool
  | [], _ => true
  | _ :: _, [] => false
  | a :: as, b :: bs => a = b && hasLead as bs

/-- Whether the first character list occurs contiguously inside the second. -/
def occursIn (pat : List Char) : List Char → Bool
  | [] => hasLead pat []
  | b :: bs => hasLead pat (b :: bs) || occursIn pat bs

/-- JavaScript `hay.includes(pat)`: substring containment on strings. -/
def strContains (hay pat : String) : Bool :=
  occursIn pat.toList hay.toList

/-- Dropping leading whitespace from a character list. -/
def trimLeadChars : List Char → List Char
  | [] => []
  | c :: cs => if c.isWhitespace then trimLeadChars cs else c :: cs

/-- JavaScript `s.trim()`: whitespace stripped from both ends (defined on the
character list so that it computes). -/
def jsTrim (s : String) : String :=
  ⟨(trimLeadChars (trimLeadChars s.data).reverse).reverse⟩

/-- JavaScript `s.toLowerCase()`, character by character. -/
def jsToLower (s : String) : String :=
  ⟨s.data.map Char.toLower⟩

/-- JavaScript truthiness on an optional string: `null`/`undefined` and the
empty string are falsy. -/
def truthyOpt (o : Option String) : Option String :=
  match o with
  | some s => if s = "" then none else some s
  | none => none

/-- JavaScript `x || d` where `x` is an optional string: the default replaces
a missing or empty value. -/
def orElseStr (o : Option String) (d : String) : String :=
  match o with
  | some s => if s = "" then d else s
  | none => d

/- ===== part_003 searchDataset: CSV promise and row filter ===== -/

/-- An event of the fast-csv stream: the headers row, one data row, or the
end of the stream. -/
inductive CsvEvent where
  | headers (hs : List String)
  | data (r : Row)
  | endEv
  deriving DecidableEq

/-- The state of the promise wrapped around the CSV parse in
`searchDataset` (part_003): the settled outcome, if any, and the `results`
accumulator, which the data handler keeps pushing to even after a
rejection. -/
structure CsvRun where
  settled : Option (Except String (List Row))
  results : List Row

/-- Settling a promise: the first `resolve`/`reject` wins, later ones are
ignored. -/
def settle (st : CsvRun) (v : Except String (List Row)) : CsvRun :=
  match st.settled with
  | some _ => st
  | none => { st with settled := some v }

/-- The row test of part_003 searchDataset's `data` handler:
`for (const column of columns)`, skipping falsy (missing or empty) cells,
comparing `row[column].toString().trim().toLowerCase()` against
`value.toString().trim().toLowerCase()` with `includes`, and breaking after
the first match. Returns whether the row gets pushed. -/
def rowMatch (row : Row) (value : String) : List String → Bool
  | [] => false
  | c :: cs =>
    match getCell row c with
    | some cell =>
      if cell = "" then rowMatch row value cs
      else if strContains (jsToLower (jsTrim cell)) (jsToLower (jsTrim value)) then true
      else rowMatch row value cs
    | none => rowMatch row value cs

/-- One stream event processed by the handlers that part_003 `searchDataset`
installs on `csv.parseString(...)`: the headers handler rejects when none of
the requested columns is present; the data handler pushes matching rows; the
end handler resolves with the accumulated results. -/
def csvStep (filename : String) (columns : List String) (value : String)
    (st : CsvRun) : CsvEvent → CsvRun
  | .headers hs =>
    if (columns.filter (fun c => hs.contains c)).isEmpty then
      settle st (.error ("Required columns missing in " ++ filename ++ "."))
    else st
  | .data r =>
    if rowMatch r value columns then { st with results := st.results ++ [r] }
    else st
  | .endEv => settle st (.ok st.results)

/-- Running the part_003 CSV promise over a stream of events, from the fresh
state (unsettled, no results). -/
def runCsv (filename : String) (columns : List String) (value : String)
    (events : List CsvEvent) : CsvRun :=
  events.foldl (csvStep filename columns value) ⟨none, []⟩

/-- The external environment of a blob-storage-backed lookup: whether a blob
exists, its raw text, and the events the fast-csv parser emits for it. -/
structure BlobEnv where
  blobExists : String → Bool
  rawContent : String → String
  csvEvents : String → List CsvEvent

/-- part_003 `searchDataset` end to end: existence check, download, empty-file
check (these throws are wrapped by the surrounding catch), then the CSV parse
promise; `none` when that promise never settles. -/
def searchDatasetP3 (env : BlobEnv) (filename : String) (columns : List String)
    (value : String) : Option (Except String (List Row)) :=
  if env.blobExists filename = false then
    some (.error ("Error processing dataset " ++ filename ++ ": ❌ File "
      ++ filename ++ " not found in Blob Storage."))
  else if jsTrim (env.rawContent filename) = "" then
    some (.error ("Error processing dataset " ++ filename ++ ": ⚠️ File "
      ++ filename ++ " is empty."))
  else
    (runCsv filename columns value (env.csvEvents filename)).settled

/-- The row-match criterion exactly as claim C1 states it: some requested
column's cell, lowercased, contains the lowercased search value as a
substring (stated from the claim's words, for comparison with the code's
`rowMatch`). -/
def specRowMatch (row : Row) (columns : List String) (value : String) : Bool :=
  columns.any (fun c =>
    match getCell row c with
    | some cell => strContains (jsToLower cell) (jsToLower value)
    | none => false)

/-- The row-match criterion the code actually implements, in existential
form: some requested column holds a nonempty cell whose trimmed lowercased
value contains the trimmed lowercased search value. -/
def rowMatchesAny (row : Row) (columns : List String) (value : String) : Bool :=
  columns.any (fun c =>
    match getCell row c with
    | some cell =>
      if cell = "" then false
      else strContains (jsToLower (jsTrim cell)) (jsToLower (jsTrim value))
    | none => false)

/- ===== part_000 AIDataService, ResponseFormatter, processRequest ===== -/

/-- The JSON object produced by `JSON.parse` on the classification response of
part_000 (the constrained schema the analysis prompt requests): each field may
be absent or null, `columns` may fail the `Array.isArray` test (`none`), and
`confidence` is the 0-1 score the prompt asks for. -/
structure ParsedJson where
  dataset : Option String
  columns : Option (List String)
  value : Option String
  confidence : Option ℚ

/-- The structured result part_000 `parseOpenAIResponse` builds: dataset,
columns and value after truthiness filtering, the canned fallback sentence,
and the validity flag. -/
structure AnalysisResult where
  dataset : Option String
  columns : List String
  value : Option String
  fallback : String
  isValid : Bool

/-- part_000 `AIDataService.parseOpenAIResponse` on a successfully parsed
JSON object: `parsedResponse.dataset || null`, columns mapped through `trim`
and `filter(Boolean)`, `parsedResponse.value || null`, and
`isValid = dataset && columns.length > 0 && value`. The confidence field of
the parsed JSON is never read. -/
def parseOpenAIResponse (p : ParsedJson) : AnalysisResult :=
  let dataset := truthyOpt p.dataset
  let columns := match p.columns with
    | some cs => (cs.map jsTrim).filter (fun c => ¬ c = "")
    | none => []
  let value := truthyOpt p.value
  { dataset := dataset, columns := columns, value := value,
    fallback := "I\'m not sure about that query. Could you clarify?",
    isValid := dataset.isSome && !columns.isEmpty && value.isSome }

/-- part_000 `parseOpenAIResponse` catch branch: the result returned when the
response text fails the JSON checks. -/
def parseFailureResult : AnalysisResult :=
  { dataset := none, columns := [], value := none,
    fallback := "I\'m having trouble processing your request. Please try again.",
    isValid := false }

/-- An HTTP response body: the revisions answer with `{ message }`,
`{ error }` (part_000 400), or `{ error, details, support }` (part_000 500). -/
inductive Body where
  | msg (message : String)
  | err (error : String)
  | errDetails (error details support : String)
  deriving DecidableEq

/-- An HTTP response: status code and JSON body. -/
structure Response where
  status : Nat
  body : Body
  deriving DecidableEq

/-- The keys of a row in order, JavaScript `Object.keys(row)`. -/
def rowKeys (r : Row) : List String := r.map (fun p => p.1)

/-- part_000 `ResponseFormatter.noResultsResponse`. -/
def noResultsResponse (value : String) : String :=
  "No records found for \'" ++ value ++ "\'. Would you like to try a different search?"

/-- part_000 `ResponseFormatter.singleResultResponse`:
the template string `primaryColumn: row[primaryColumn] || "N/A"`. -/
def singleResultResponse (row : Row) (primaryColumn : String) : String :=
  primaryColumn ++ ": " ++ orElseStr (getCell row primaryColumn) "N/A"

/-- part_000 `ResponseFormatter.multiResultResponse`: a numbered
`n. SKU sku_id - row[primaryColumn]` line per row, joined by newlines, then
the disambiguation prompt. -/
def multiResultResponse (results : List Row) (columns : List String) : String :=
  let primaryColumn := match columns with
    | c :: _ => c
    | [] => orElseStr (rowKeys (results.headD [])).head? "Unknown"
  String.intercalate "\n" (results.enum.map (fun p =>
    toString (p.1 + 1) ++ ". SKU " ++ orElseStr (getCell p.2 "sku_id") "N/A"
      ++ " - " ++ orElseStr (getCell p.2 primaryColumn) "Unknown"))
  ++ "\nPlease specify which item you need details for."

/-- part_000 `ResponseFormatter.resultsResponse`: multi-result list when more
than one row, otherwise the single-result template on the first row, its
primary column being the first requested column or, failing that, the row's
first key (JavaScript prints a missing one as undefined). -/
def resultsResponse (results : List Row) (columns : List String) : String :=
  if results.length > 1 then multiResultResponse results columns
  else
    let row := results.headD []
    let primary := match columns with
      | c :: _ => c
      | [] => (rowKeys row).headD "undefined"
    singleResultResponse row primary

/-- part_000 `ResponseFormatter.format`: the no-results message on an empty
list, otherwise `resultsResponse`. -/
def formatResponse (results : List Row) (columns : List String)
    (value : String) : String :=
  if results.length = 0 then noResultsResponse value
  else resultsResponse results columns

/-- part_000 `processRequest`: trim-and-check the user message (400 when
missing or empty), query the dataset and format when the analysis is valid,
otherwise fall back to a plain LLM chat completion on the user message,
substituting the analysis's canned fallback when the completion text is
empty. The returned flag records whether the dataset lookup ran; the lookup's
rows and the LLM are oracle parameters. -/
def processRequest (userMessage : Option String) (analysis : AnalysisResult)
    (lookupResults : List Row) (llm : String → String) : Bool × Response :=
  match userMessage with
  | none => (false, ⟨400, .err "Missing userMessage"⟩)
  | some m =>
    if jsTrim m = "" then (false, ⟨400, .err "Missing userMessage"⟩)
    else if analysis.isValid then
      (true, ⟨200, .msg (formatResponse lookupResults analysis.columns
        (orElseStr analysis.value "null"))⟩)
    else
      (false, ⟨200, .msg (if llm (jsTrim m) = "" then analysis.fallback
        else llm (jsTrim m))⟩)

/-- part_000 top-level `module.exports` catch branch: every error becomes a
500 with the `{ error, details, support }` envelope, the details being a
usage hint when the message contains "Timeout" and the raw error message
otherwise. -/
def usageHint : String :=
  "Try using specific inventory terms like SKU numbers or product names"

/-- part_000 top-level catch: the 500 response built from a caught error
message. -/
def moduleCatch (errMsg : String) : Response :=
  ⟨500, .errDetails "Processing failed"
    (if strContains errMsg "Timeout" then usageHint else errMsg)
    "contact@inventory-support.com"⟩

/- ===== part_000 BlobDataService.queryDataset blob actions ===== -/

/-- An outbound blob-storage operation. -/
inductive BlobAction where
  | existsCheck (filename : String)
  | download (filename : String)
  deriving DecidableEq

/-- The blob-storage operations part_000 `BlobDataService.queryDataset`
performs, in order: it goes straight to `blobClient.exists()` for whatever
filename the classification produced, then downloads when the blob exists;
no validation of the dataset name happens before the existence check. -/
def queryDatasetActions (env : BlobEnv) (filename : String) : List BlobAction :=
  if env.blobExists filename then
    [.existsCheck filename, .download filename]
  else [.existsCheck filename]

/-- The error part_000 `queryDataset` throws when the existence check fails. -/
def queryDatasetMissingError (filename : String) : String :=
  "Dataset " ++ filename ++ " not found"

/-- The static allow-list of dataset filenames: the CSV files enumerated in
the classification prompt (part_003 and chatFunction list the same
nineteen). -/
def datasetAllowList : List String :=
  ["barcodes.csv", "consolidated_columns.csv", "materialBasicData.csv",
   "missingItemReport.csv", "mrpData.csv", "optimizerDataIBM.csv",
   "purchaseMaster.csv", "purchaseRecords.csv", "recommendedOrders.csv",
   "reservationData.csv", "stockCategoryReference.csv",
   "stockLogisticsData.csv", "stockMaintenanceData.csv",
   "stockOwnerReference.csv", "stockPricingData.csv",
   "stockTransactions.csv", "subscriberData.csv", "tableDirectory.csv",
   "warehouseData.csv"]

/- ===== chatFunction/index.js handler ===== -/

/-- The request body `{ userMessage }`; the field may be absent. -/
structure ReqBody where
  userMessage : Option String

/-- An HTTP request; the body may be absent. -/
structure Req where
  body : Option ReqBody

/-- The `{ dataset, column, value }` triple `analyzeUserQuery` returns; each
field may be null. -/
structure Classification where
  dataset : Option String
  column : Option String
  value : Option String

/-- chatFunction `req.body && req.body.userMessage ?
req.body.userMessage.trim() : null`: the trimmed message, or null when the
body or the field is absent or the field is the (falsy) empty string. -/
def extractUserMessage (req : Req) : Option String :=
  match req.body with
  | some b =>
    match b.userMessage with
    | some m => if m = "" then none else some (jsTrim m)
    | none => none
  | none => none

/-- The chatFunction handler (src/chatFunction/index.js): 400 when no user
message; on a truthy dataset/column/value classification, search the dataset
(500 with a `message` body on failure, the formatted results or the
`No records found` message on success); otherwise the plain LLM fallback.
Classification, search and the LLM are oracle parameters, as is the result
formatter (the source invokes `formatResults(searchResults, context)`,
passing its logging context where a column is expected). -/
def chatHandler (req : Req) (analyze : String → Classification)
    (search : String → String → String → Except String (List Row))
    (llm : String → String) (fmt : List Row → String) : Response :=
  match extractUserMessage req with
  | none => ⟨400, .msg "Error: No userMessage found in request body."⟩
  | some um =>
    if um = "" then ⟨400, .msg "Error: No userMessage found in request body."⟩
    else
      let cl := analyze um
      match truthyOpt cl.dataset, truthyOpt cl.column, truthyOpt cl.value with
      | some d, some c, some v =>
        match search d c v with
        | .ok rs =>
          if rs.length > 0 then ⟨200, .msg (fmt rs)⟩
          else ⟨200, .msg ("No records found for \'" ++ v ++ "\' in " ++ d ++ ".")⟩
        | .error e => ⟨500, .msg ("Error searching dataset: " ++ e)⟩
      | _, _, _ => ⟨200, .msg (llm um)⟩

/-- Whether a body is the `{ error, details, ... }` error envelope. -/
def isErrorEnvelope : Body → Bool
  | .errDetails _ _ _ => true
  | _ => false

/- ===== part_001 searchDataset (synchronous return) ===== -/

/-- part_001 searchDataset's data-handler predicate: `row[column] &&
row[column].toLowerCase().includes(value.toLowerCase())` (no trim). -/
def rowMatchP1 (row : Row) (column value : String) : Bool :=
  match getCell row column with
  | some cell =>
    if cell = "" then false else strContains (jsToLower cell) (jsToLower value)
  | none => false

/-- The `results` accumulator of part_001 `searchDataset` after a list of
stream events has been delivered. -/
def resultsAfter (column value : String) (events : List CsvEvent) : List Row :=
  events.foldl (fun acc ev =>
    match ev with
    | .data r => if rowMatchP1 r column value then acc ++ [r] else acc
    | _ => acc) []

/-- How many stream events are delivered while the synchronous body of
part_001 `searchDataset` runs: none, because `csv.parseString` emits its
events on later event-loop turns, while `return results` executes
immediately after the handlers are installed. -/
def syncDeliveredEvents : Nat := 0

/-- part_001 `searchDataset`: existence and empty-file checks (wrapped by the
surrounding catch), then `return results` with the accumulator as of the
synchronous return point, before any stream event has fired. -/
def searchDatasetP1 (env : BlobEnv) (filename column value : String) :
    Except String (List Row) :=
  if env.blobExists filename = false then
    .error ("Error processing dataset " ++ filename ++ ": File "
      ++ filename ++ " not found.")
  else if jsTrim (env.rawContent filename) = "" then
    .error ("Error processing dataset " ++ filename ++ ": File "
      ++ filename ++ " is empty.")
  else
    .ok (resultsAfter column value
      ((env.csvEvents filename).take syncDeliveredEvents))

/-- part_001 `formatResults`: each row rendered as `**key**: value` lines,
rows separated by blank lines. -/
def formatResultsP1 (results : List Row) : String :=
  String.intercalate "\n\n" (results.map (fun row =>
    String.intercalate "\n" (row.map (fun p =>
      "**" ++ p.1 ++ "**: " ++ p.2))))

/-- The part_001 handler: 400 when no user message; on a truthy
dataset/column/value classification, run the (broken) `searchDataset` and
answer with the formatted results or the `No records found` message;
otherwise the plain LLM fallback. -/
def chatHandlerP1 (req : Req) (analyze : String → Classification)
    (env : BlobEnv) (llm : String → String) : Response :=
  match extractUserMessage req with
  | none => ⟨400, .msg "Error: No userMessage found in request body."⟩
  | some um =>
    if um = "" then ⟨400, .msg "Error: No userMessage found in request body."⟩
    else
      let cl := analyze um
      match truthyOpt cl.dataset, truthyOpt cl.column, truthyOpt cl.value with
      | some d, some c, some v =>
        match searchDatasetP1 env d c v with
        | .ok rs =>
          if rs.length > 0 then ⟨200, .msg (formatResultsP1 rs)⟩
          else ⟨200, .msg ("No records found for \'" ++ v ++ "\' in " ++ d ++ ".")⟩
        | .error e => ⟨500, .msg ("Error searching dataset: " ++ e)⟩
      | _, _, _ => ⟨200, .msg (llm um)⟩

/- ===== helper lemmas on the CSV model ===== -/

theorem rowMatch_eq_rowMatchesAny (row : Row) (value : String) :
    ∀ cols : List String, rowMatch row value cols = rowMatchesAny row cols value := by
  intro cols
  induction cols with
  | nil => rfl
  | cons c cs ih =>
    simp only [rowMatch, rowMatchesAny, List.any_cons] at *
    cases h : getCell row c with
    | none => simp [h, ih]
    | some cell =>
      by_cases hc : cell = ""
      · simp [h, hc, ih]
      · by_cases hs : strContains (jsToLower (jsTrim cell)) (jsToLower (jsTrim value))
        · simp [h, hc, hs]
        · simp [h, hc, hs, ih]

theorem foldl_data_events (filename : String) (cols : List String)
    (value : String) (rows : List Row) :
    ∀ st : CsvRun,
      (rows.map CsvEvent.data).foldl (csvStep filename cols value) st
        = { st with results := st.results ++ rows.filter (fun r => rowMatch r value cols) } := by
  induction rows with
  | nil => intro st; simp
  | cons r rs ih =>
    intro st
    simp only [List.map_cons, List.foldl_cons, csvStep]
    by_cases h : rowMatch r value cols
    · simp [h, ih, List.filter_cons, List.append_assoc]
    · simp [h, ih, List.filter_cons]

theorem settle_of_settled {st : CsvRun} {v : Except String (List Row)}
    (h : st.settled = some v) (w : Except String (List Row)) :
    settle st w = st := by
  simp [settle, h]

theorem settled_preserved (filename : String) (cols : List String)
    (value : String) (evs : List CsvEvent) :
    ∀ (st : CsvRun) (v : Except String (List Row)), st.settled = some v →
      (evs.foldl (csvStep filename cols value) st).settled = some v := by
  induction evs with
  | nil => intro st v h; exact h
  | cons e es ih =>
    intro st v h
    simp only [List.foldl_cons]
    apply ih
    cases e with
    | headers hs =>
      simp only [csvStep]
      split
      · rw [settle_of_settled h]; exact h
      · exact h
    | data r =>
      simp only [csvStep]
      split
      · exact h
      · exact h
    | endEv =>
      simp only [csvStep]
      rw [settle_of_settled h]; exact h

/- ===== claim theorems ===== -/

/-- C1 counterexample: for search value " 027" the claim's criterion — the
lowercased cell contains the lowercased search value as a substring — rejects
the row with cell "10271", yet the lookup, which trims both sides before
comparing, returns that row. -/
theorem C1_counterexample :
    specRowMatch [("sku_id", "10271")] ["sku_id"] " 027" = false
    ∧ (runCsv "warehouseData.csv" ["sku_id"] " 027"
        [CsvEvent.headers ["sku_id"], CsvEvent.data [("sku_id", "10271")],
         CsvEvent.endEv]).settled
      = some (.ok [[("sku_id", "10271")]]) :=
  ⟨rfl, rfl⟩

/-- C1 (amended): for every downloaded CSV delivered as a headers event, data
events and an end event, with the blob present and nonempty and at least one
requested column present in the headers, part_003 searchDataset resolves with
exactly the rows in which at least one requested column holds a nonempty cell
whose trimmed lowercased value contains the trimmed lowercased search value
as a substring; the match is case-insensitive and partial (value "027"
matches cell "10271", value "PUMP" matches cell "Booster pump"). -/
theorem C1_search_returns_matching_rows (env : BlobEnv) (filename : String)
    (hs : List String) (rows : List Row) (cols : List String) (value : String)
    (hex : env.blobExists filename = true)
    (hraw : jsTrim (env.rawContent filename) ≠ "")
    (hev : env.csvEvents filename
      = CsvEvent.headers hs :: rows.map CsvEvent.data ++ [CsvEvent.endEv])
    (hcols : (cols.filter (fun c => hs.contains c)).isEmpty = false) :
    searchDatasetP3 env filename cols value
      = some (.ok (rows.filter (fun r => rowMatchesAny r cols value)))
    ∧ (runCsv "warehouseData.csv" ["sku_id"] "027"
        [CsvEvent.headers ["sku_id"], CsvEvent.data [("sku_id", "10271")],
         CsvEvent.endEv]).settled
      = some (.ok [[("sku_id", "10271")]])
    ∧ (runCsv "materialBasicData.csv" ["item_description"] "PUMP"
        [CsvEvent.headers ["item_description"],
         CsvEvent.data [("item_description", "Booster pump")],
         CsvEvent.endEv]).settled
      = some (.ok [[("item_description", "Booster pump")]]) := by
  refine ⟨?_, rfl, rfl⟩
  have hfil : rows.filter (fun r => rowMatch r value cols)
      = rows.filter (fun r => rowMatchesAny r cols value) :=
    List.filter_congr (fun r _ => rowMatch_eq_rowMatchesAny r value cols)
  unfold searchDatasetP3
  rw [hex, if_neg (by decide : ¬ (true = false)), if_neg hraw, hev]
  show (List.foldl (csvStep filename cols value) ⟨none, []⟩
      (CsvEvent.headers hs :: (rows.map CsvEvent.data ++ [CsvEvent.endEv]))).settled = _
  rw [List.foldl_cons]
  have h1 : csvStep filename cols value ⟨none, []⟩ (CsvEvent.headers hs)
      = ⟨none, []⟩ := by
    simp only [csvStep, hcols, Bool.false_eq_true, if_false]
  rw [h1, List.foldl_append, foldl_data_events]
  show (csvStep filename cols value
      ({ settled := none,
         results := [] ++ rows.filter (fun r => rowMatch r value cols) } : CsvRun)
      CsvEvent.endEv).settled = _
  rw [hfil]
  rfl

/-- C1 witness. -/
theorem C1_search_returns_matching_rows_witness :
    searchDatasetP3 ⟨fun _ => true, fun _ => "sku_id,soh\n10271,1",
        fun _ => [CsvEvent.headers ["sku_id", "soh"],
          CsvEvent.data [("sku_id", "10271"), ("soh", "1")], CsvEvent.endEv]⟩
      "warehouseData.csv" ["sku_id"] "027"
      = some (.ok [[("sku_id", "10271"), ("soh", "1")]]) := by
  have h := (C1_search_returns_matching_rows
    ⟨fun _ => true, fun _ => "sku_id,soh\n10271,1",
      fun _ => [CsvEvent.headers ["sku_id", "soh"],
        CsvEvent.data [("sku_id", "10271"), ("soh", "1")], CsvEvent.endEv]⟩
    "warehouseData.csv" ["sku_id", "soh"]
    [[("sku_id", "10271"), ("soh", "1")]] ["sku_id"] "027"
    rfl (by decide) rfl rfl).1
  exact h.trans rfl

/-- C2 counterexample: a classification whose confidence is 0.1, below the
claimed 0.4 threshold, but whose dataset, columns and value are all present,
is treated as valid and the pipeline does perform the dataset lookup. -/
theorem C2_counterexample :
    ((1 : ℚ) / 10 < 2 / 5)
    ∧ (parseOpenAIResponse ⟨some "warehouseData.csv", some ["soh"],
        some "10271", some (1 / 10)⟩).isValid = true
    ∧ (processRequest (some "How many are in stock for 10271?")
        (parseOpenAIResponse ⟨some "warehouseData.csv", some ["soh"],
          some "10271", some (1 / 10)⟩) [] (fun _ => "fallback")).1 = true :=
  ⟨by norm_num, rfl, rfl⟩

/-- C2 (amended): part_000 ignores the confidence score entirely:
parseOpenAIResponse returns the same result whatever the confidence field
holds, and processRequest performs the dataset lookup exactly when the
parsed dataset, columns and value are all present (isValid), regardless of
confidence. -/
theorem C2_confidence_ignored (p : ParsedJson) (q : Option ℚ) (um : String)
    (res : List Row) (llm : String → String) (h : jsTrim um ≠ "") :
    parseOpenAIResponse { p with confidence := q } = parseOpenAIResponse p
    ∧ (processRequest (some um) (parseOpenAIResponse p) res llm).1
      = (parseOpenAIResponse p).isValid := by
  refine ⟨rfl, ?_⟩
  simp only [processRequest, if_neg h]
  cases hv : (parseOpenAIResponse p).isValid <;> simp [hv]

/-- C2 witness. -/
theorem C2_confidence_ignored_witness :
    parseOpenAIResponse ⟨none, none, none, some 1⟩
      = parseOpenAIResponse ⟨none, none, none, some (1 / 10)⟩
    ∧ (processRequest (some "hello")
        (parseOpenAIResponse ⟨none, none, none, some (1 / 10)⟩) []
        (fun m => m)).1
      = (parseOpenAIResponse ⟨none, none, none, some (1 / 10)⟩).isValid :=
  C2_confidence_ignored ⟨none, none, none, some (1 / 10)⟩ (some 1) "hello" []
    (fun m => m) (by decide)

/-- C5 counterexample: a valid classification whose lookup returns zero rows
is answered with the formatted no-records message, not with the fallback LLM
completion text. -/
theorem C5_counterexample :
    (parseOpenAIResponse ⟨some "warehouseData.csv", some ["soh"],
        some "10271", some 1⟩).isValid = true
    ∧ processRequest (some "q") (parseOpenAIResponse ⟨some "warehouseData.csv",
        some ["soh"], some "10271", some 1⟩) [] (fun _ => "fallback completion")
      = (true, ⟨200, .msg "No records found for \'10271\'. Would you like to try a different search?"⟩)
    ∧ "No records found for \'10271\'. Would you like to try a different search?"
        ≠ "fallback completion" :=
  ⟨rfl, rfl, by decide⟩

/-- C5 (amended): whenever the classification analysis is invalid (parse
failure or a missing dataset, columns or value), part_000 processRequest
skips the dataset lookup and answers 200 with the plain LLM chat completion
of the trimmed user message, verbatim, substituting the analysis's canned
fallback sentence only when that completion text is empty. -/
theorem C5_fallback_on_invalid (um : String) (a : AnalysisResult)
    (res : List Row) (llm : String → String)
    (h : jsTrim um ≠ "") (hv : a.isValid = false) :
    processRequest (some um) a res llm
      = (false, ⟨200, .msg (if llm (jsTrim um) = "" then a.fallback
          else llm (jsTrim um))⟩) := by
  simp only [processRequest, if_neg h,
    if_neg (show ¬ a.isValid = true by rw [hv]; exact Bool.false_ne_true)]

/-- C5 witness. -/
theorem C5_fallback_on_invalid_witness :
    processRequest (some " hello ") parseFailureResult []
      (fun m => "Echo: " ++ m)
      = (false, ⟨200, .msg "Echo: hello"⟩) := by
  have h := C5_fallback_on_invalid " hello " parseFailureResult []
    (fun m => "Echo: " ++ m) (by decide) rfl
  exact h.trans rfl

/-- C3 counterexample: "evil.csv" is not in the static allow-list of dataset
filenames, yet queryDataset goes straight to the blob existence check for it
instead of rejecting the request first. -/
theorem C3_counterexample :
    "evil.csv" ∉ datasetAllowList
    ∧ queryDatasetActions ⟨fun _ => false, fun _ => "", fun _ => []⟩ "evil.csv"
      = [BlobAction.existsCheck "evil.csv"] :=
  ⟨by decide, rfl⟩

/-- C3 (amended): part_000 queryDataset never validates the dataset name: for
every filename, allow-listed or not, and every blob environment, the first
blob-storage operation it performs is the existence check on that filename. -/
theorem C3_exists_check_first (env : BlobEnv) (filename : String) :
    (queryDatasetActions env filename).head?
      = some (BlobAction.existsCheck filename) := by
  unfold queryDatasetActions
  cases h : env.blobExists filename <;> simp [h]

/-- C4 (confirmed): when none of the requested columns appears in the header
row, the promise of part_003 searchDataset is already rejected after the
headers event alone, before any data event, and the full run over the data
rows and the end event settles to that same error: the lookup fails with an
error decided before any data row is scanned. -/
theorem C4_reject_before_rows (filename : String) (hs : List String)
    (rows : List Row) (cols : List String) (value : String)
    (h : cols.filter (fun c => hs.contains c) = []) :
    (runCsv filename cols value [CsvEvent.headers hs]).settled
      = some (.error ("Required columns missing in " ++ filename ++ "."))
    ∧ (runCsv filename cols value
        (CsvEvent.headers hs :: rows.map CsvEvent.data ++ [CsvEvent.endEv])).settled
      = some (.error ("Required columns missing in " ++ filename ++ ".")) := by
  have hstep : csvStep filename cols value ⟨none, []⟩ (CsvEvent.headers hs)
      = ⟨some (.error ("Required columns missing in " ++ filename ++ ".")), []⟩ := by
    simp only [csvStep]
    rw [h]
    rfl
  constructor
  · show (List.foldl (csvStep filename cols value) ⟨none, []⟩
      [CsvEvent.headers hs]).settled = _
    rw [List.foldl_cons, hstep]
    rfl
  · show (List.foldl (csvStep filename cols value) ⟨none, []⟩
      (CsvEvent.headers hs :: (rows.map CsvEvent.data ++ [CsvEvent.endEv]))).settled = _
    rw [List.foldl_cons, hstep]
    exact settled_preserved filename cols value _ _ _ rfl

/-- C4 witness. -/
theorem C4_reject_before_rows_witness :
    (runCsv "warehouseData.csv" ["soh"] "1" [CsvEvent.headers ["x"]]).settled
      = some (.error "Required columns missing in warehouseData.csv.")
    ∧ (runCsv "warehouseData.csv" ["soh"] "1"
        (CsvEvent.headers ["x"] :: [[("x", "1")]].map CsvEvent.data
          ++ [CsvEvent.endEv])).settled
      = some (.error "Required columns missing in warehouseData.csv.") :=
  C4_reject_before_rows "warehouseData.csv" ["x"] [[("x", "1")]] ["soh"] "1" rfl

/-- C6 (confirmed): part_000 ResponseFormatter: an empty result list gives
the fixed no-records message; exactly one row gives the string
"column: value" for the primary (first requested) column, with N/A for a
missing or empty cell; more than one row gives a numbered list pairing each
row's SKU with its primary-column value, followed by the disambiguation
prompt. -/
theorem C6_formatter_cases :
    (∀ (cols : List String) (value : String),
      formatResponse [] cols value
        = "No records found for \'" ++ value
          ++ "\'. Would you like to try a different search?")
    ∧ (∀ (r : Row) (c : String) (cs : List String) (value : String),
      formatResponse [r] (c :: cs) value
        = c ++ ": " ++ orElseStr (getCell r c) "N/A")
    ∧ (∀ (r1 r2 : Row) (rs : List Row) (c : String) (cs : List String)
        (value : String),
      formatResponse (r1 :: r2 :: rs) (c :: cs) value
        = String.intercalate "\n" ((r1 :: r2 :: rs).enum.map (fun p =>
            toString (p.1 + 1) ++ ". SKU " ++ orElseStr (getCell p.2 "sku_id") "N/A"
              ++ " - " ++ orElseStr (getCell p.2 c) "Unknown"))
          ++ "\nPlease specify which item you need details for.") :=
by
  refine ⟨fun _ _ => rfl, fun _ _ _ _ => rfl, fun r1 r2 rs c cs value => ?_⟩
  have h0 : ¬ (r1 :: r2 :: rs).length = 0 := by simp
  have h1 : (r1 :: r2 :: rs).length > 1 := by
    simp only [List.length_cons]
    omega
  unfold formatResponse resultsResponse
  rw [if_neg h0, if_pos h1]
  rfl

/-- C7 (confirmed): a request with no body, or whose body lacks the
userMessage field, is answered with status 400 by the chatFunction handler
and by part_000 processRequest, whatever the classification, search, LLM and
formatting oracles, the analysis result, and the dataset rows. -/
theorem C7_missing_message_400 (req : Req) (analyze : String → Classification)
    (search : String → String → String → Except String (List Row))
    (llm : String → String) (fmt : List Row → String)
    (a : AnalysisResult) (res : List Row)
    (h : req.body = none ∨ req.body.bind ReqBody.userMessage = none) :
    (chatHandler req analyze search llm fmt).status = 400
    ∧ (processRequest none a res llm).2.status = 400 := by
  refine ⟨?_, rfl⟩
  have hx : extractUserMessage req = none := by
    cases h with
    | inl h1 => simp [extractUserMessage, h1]
    | inr h2 =>
      cases hb : req.body with
      | none => simp [extractUserMessage, hb]
      | some b =>
        rw [hb] at h2
        simp [extractUserMessage, hb, show b.userMessage = none from h2]
  simp [chatHandler, hx]

/-- C7 witness. -/
theorem C7_missing_message_400_witness :
    (chatHandler ⟨none⟩ (fun _ => ⟨none, none, none⟩) (fun _ _ _ => .ok [])
        (fun _ => "") (fun _ => "")).status = 400
    ∧ (processRequest none parseFailureResult [] (fun _ => "")).2.status = 400 :=
  C7_missing_message_400 ⟨none⟩ (fun _ => ⟨none, none, none⟩)
    (fun _ _ _ => .ok []) (fun _ => "") (fun _ => "") parseFailureResult []
    (Or.inl rfl)

/-- C8 counterexample: in the chatFunction revision a dataset-not-found
failure is answered with status 500 whose body is a `{ message }` object, not
the `{ error, details }` envelope the claim states. -/
theorem C8_counterexample :
    chatHandler ⟨some ⟨some "where do we buy sku 10271?"⟩⟩
        (fun _ => ⟨some "purchaseRecords.csv", some "sku_id", some "10271"⟩)
        (fun _ _ _ => .error "File purchaseRecords.csv not found.")
        (fun _ => "") (fun _ => "")
      = ⟨500, .msg "Error searching dataset: File purchaseRecords.csv not found."⟩
    ∧ isErrorEnvelope
        (Body.msg "Error searching dataset: File purchaseRecords.csv not found.")
      = false :=
  ⟨rfl, rfl⟩

/-- C8 (amended): the part_000 top-level catch answers every caught error
with status 500 and the { error, details, support } envelope, the details
being the user-facing usage hint whenever the error message contains
"Timeout" (as the timeout race's error does) and the raw message otherwise,
for example for the dataset-not-found error thrown by queryDataset; the
chatFunction revisions instead answer 500 with a { message } body. -/
theorem C8_catch_envelope (e : String) :
    moduleCatch e = ⟨500, .errDetails "Processing failed"
        (if strContains e "Timeout" then usageHint else e)
        "contact@inventory-support.com"⟩
    ∧ (strContains e "Timeout" = true →
        moduleCatch e = ⟨500, .errDetails "Processing failed" usageHint
          "contact@inventory-support.com"⟩)
    ∧ moduleCatch (queryDatasetMissingError "warehouseData.csv")
      = ⟨500, .errDetails "Processing failed"
          (queryDatasetMissingError "warehouseData.csv")
          "contact@inventory-support.com"⟩ := by
  refine ⟨rfl, fun ht => ?_, rfl⟩
  simp [moduleCatch, ht]

/-- C8 witness. -/
theorem C8_catch_envelope_witness :
    moduleCatch "Timeout after undefinedms"
      = ⟨500, .errDetails "Processing failed" usageHint
          "contact@inventory-support.com"⟩ :=
  (C8_catch_envelope "Timeout after undefinedms").2.1 rfl

/-- C9 (confirmed): part_001 searchDataset returns its results array at the
synchronous return point, before any CSV stream event has been delivered, so
for every existing nonempty file and every column and search value it
returns the empty list, and every structurally valid query is answered with
the No-records-found message, never a formatted match. -/
theorem C9_sync_return_empty (env : BlobEnv) (d c v um : String)
    (llm : String → String)
    (hex : env.blobExists d = true)
    (hraw : jsTrim (env.rawContent d) ≠ "")
    (hum : jsTrim um ≠ "")
    (hd : d ≠ "") (hc : c ≠ "") (hv : v ≠ "") :
    searchDatasetP1 env d c v = .ok []
    ∧ chatHandlerP1 ⟨some ⟨some um⟩⟩ (fun _ => ⟨some d, some c, some v⟩) env llm
      = ⟨200, .msg ("No records found for \'" ++ v ++ "\' in " ++ d ++ ".")⟩ := by
  have hum0 : um ≠ "" := by
    intro h0
    exact hum (by rw [h0]; rfl)
  have h1 : searchDatasetP1 env d c v = .ok [] := by
    unfold searchDatasetP1
    rw [hex, if_neg (by decide : ¬ (true = false)), if_neg hraw]
    rfl
  refine ⟨h1, ?_⟩
  unfold chatHandlerP1
  have hx : extractUserMessage ⟨some ⟨some um⟩⟩ = some (jsTrim um) := by
    simp [extractUserMessage, hum0]
  rw [hx]
  simp only [if_neg hum, truthyOpt, if_neg hd, if_neg hc, if_neg hv, h1]
  rfl

/-- C9 witness: the file holds a row whose sku_id cell equals the search
value, yet the revision answers that no records were found. -/
theorem C9_sync_return_empty_witness :
    searchDatasetP1 ⟨fun _ => true, fun _ => "sku_id,soh\n10271,1",
        fun _ => [CsvEvent.headers ["sku_id", "soh"],
          CsvEvent.data [("sku_id", "10271"), ("soh", "1")], CsvEvent.endEv]⟩
      "warehouseData.csv" "sku_id" "10271" = .ok []
    ∧ chatHandlerP1 ⟨some ⟨some "how many in stock for sku 10271?"⟩⟩
        (fun _ => ⟨some "warehouseData.csv", some "sku_id", some "10271"⟩)
        ⟨fun _ => true, fun _ => "sku_id,soh\n10271,1",
          fun _ => [CsvEvent.headers ["sku_id", "soh"],
            CsvEvent.data [("sku_id", "10271"), ("soh", "1")], CsvEvent.endEv]⟩
        (fun _ => "")
      = ⟨200, .msg "No records found for \'10271\' in warehouseData.csv."⟩ := by
  have h := C9_sync_return_empty ⟨fun _ => true, fun _ => "sku_id,soh\n10271,1",
      fun _ => [CsvEvent.headers ["sku_id", "soh"],
        CsvEvent.data [("sku_id", "10271"), ("soh", "1")], CsvEvent.endEv]⟩
    "warehouseData.csv" "sku_id" "10271" "how many in stock for sku 10271?"
    (fun _ => "") rfl (by decide) (by decide) (by decide) (by decide) (by decide)
  exact ⟨h.1, h.2.trans rfl⟩

/-- C10 (confirmed): a userMessage consisting only of whitespace is truthy,
so it is trimmed to the empty string before the emptiness check, and the
chatFunction handler answers exactly as for an absent userMessage: the same
400 response. -/
theorem C10_whitespace_400 (ws : String) (analyze : String → Classification)
    (search : String → String → String → Except String (List Row))
    (llm : String → String) (fmt : List Row → String)
    (h : jsTrim ws = "") :
    chatHandler ⟨some ⟨some ws⟩⟩ analyze search llm fmt
      = chatHandler ⟨some ⟨none⟩⟩ analyze search llm fmt
    ∧ (chatHandler ⟨some ⟨some ws⟩⟩ analyze search llm fmt).status = 400 := by
  have hx : chatHandler ⟨some ⟨some ws⟩⟩ analyze search llm fmt
      = ⟨400, .msg "Error: No userMessage found in request body."⟩ := by
    by_cases h0 : ws = ""
    · unfold chatHandler
      have : extractUserMessage ⟨some ⟨some ws⟩⟩ = none := by
        simp [extractUserMessage, h0]
      rw [this]
    · unfold chatHandler
      have hx2 : extractUserMessage ⟨some ⟨some ws⟩⟩ = some (jsTrim ws) := by
        simp [extractUserMessage, h0]
      rw [hx2, h]
      rfl
  exact ⟨hx.trans rfl, by rw [hx]⟩

/-- C10 witness. -/
theorem C10_whitespace_400_witness :
    chatHandler ⟨some ⟨some "   "⟩⟩ (fun _ => ⟨none, none, none⟩)
        (fun _ _ _ => .ok []) (fun _ => "") (fun _ => "")
      = chatHandler ⟨some ⟨none⟩⟩ (fun _ => ⟨none, none, none⟩)
        (fun _ _ _ => .ok []) (fun _ => "") (fun _ => "")
    ∧ (chatHandler ⟨some ⟨some "   "⟩⟩ (fun _ => ⟨none, none, none⟩)
        (fun _ _ _ => .ok []) (fun _ => "") (fun _ => "")).status = 400 :=
  C10_whitespace_400 "   " (fun _ => ⟨none, none, none⟩) (fun _ _ _ => .ok [])
    (fun _ => "") (fun _ => "") (by decide)
